import Mathlib

/-!
# Verification of the SHawn-BIO research assistant

Shallow embedding of the two modules of the repository:

* `01-Analysis/research_engine.py` — `ResearchEngine.meta_analyze`, the
  multi-source retrieval-and-merge flow (vector-index hits plus a recursive
  filesystem scan for matching `.md` files, truncation, capping, and the
  choice between the analysis and debate prompt templates).
* `bio_cartridge.py` — the `BioCartridge` session object together with its
  sub-components `BioValues.validate_ethics`, `BioSkills.analyze_data`,
  `BioSkills.design_experiment`, the keyword query router and the research
  project ledger.

Python strings are modelled as Lean `String`s (a `String` is a list of
unicode code points, matching Python's code-point slicing and `in`
operator); Python floats are modelled as exact numbers (`ℚ`, with `ℝ` only
where the code takes a square root); Python dicts of static heterogeneous
data are modelled by the `PV` value tree; operations that can raise are
`Option`-valued, `none` standing for an uncaught exception.
-/

/-! ## String primitives used by the code

`pyLower` models `str.lower` (the code only lowercases for ASCII keyword
comparison), `pyIn needle hay` models Python's `needle in hay` substring
test, `pyEndsWith` models `str.endswith`, and `pyTake s n` models the
slice `s[:n]`, which Python performs on code points. -/

def pyLower (s : String) : String :=
  String.mk (s.data.map Char.toLower)

/-- `subListOf n h` holds when the list `n` occurs contiguously inside `h`
(Python's `in` on strings, after both sides are taken apart into code
points). -/
def subListOf (n : List Char) : List Char → Bool
  | [] => n.isEmpty
  | c :: t => List.isPrefixOf n (c :: t) || subListOf n t

def pyIn (needle hay : String) : Bool :=
  subListOf needle.data hay.data

def pyEndsWith (s suf : String) : Bool :=
  suf.data.isSuffixOf s.data

def pyTake (s : String) (n : Nat) : String :=
  String.mk (s.data.take n)

theorem pyTake_length_le (s : String) (n : Nat) : (pyTake s n).length ≤ n := by
  show (s.data.take n).length ≤ n
  simp [List.length_take]

/-! ## ResearchEngine.meta_analyze — data model

A `RagHit` is one result of `self.pipeline.search(topic, n_results=5)`
(a dict with `source` and `content` fields).  An `FsFile` is one file met
by the `os.walk` scan: its basename and its content, `none` modelling a
file whose `open`/`read` raises (the `except` branch logs and skips it).
A `DirContent` is one of the three fixed search directories:
`present` models the `os.path.exists` test and `batches` the successive
`(root, dirs, files)` triples yielded by `os.walk`. -/

structure RagHit where
  source : String
  content : String
deriving DecidableEq

structure FsFile where
  name : String
  content : Option String
deriving DecidableEq

structure DirContent where
  present : Bool
  batches : List (List FsFile)
deriving DecidableEq

inductive SnipOrigin where
  | vector
  | filesystem
deriving DecidableEq

/-- One entry of the `matched_content` list.  The code stores a formatted
string; we keep the label and the (already truncated) content part
structured, with `Snippet.render` producing the exact formatted string. -/
structure Snippet where
  label : String
  content : String
  origin : SnipOrigin
deriving DecidableEq

/-- `f"Source (OneDrive): {hit['source']}\nContent:\n{hit['content'][:1000]}"`
resp. `f"Source ({sub}/{file}): {content[:1000]}..."`. -/
def Snippet.render (s : Snippet) : String :=
  match s.origin with
  | SnipOrigin.vector => "Source (OneDrive): " ++ s.label ++ "\nContent:\n" ++ s.content
  | SnipOrigin.filesystem => "Source (" ++ s.label ++ "): " ++ s.content ++ "..."

/-- Snippet built from one vector-index hit (content sliced to 1000). -/
def ragSnippet (h : RagHit) : Snippet :=
  { label := h.source, content := pyTake h.content 1000, origin := SnipOrigin.vector }

/-- Snippet built from one matching scanned file (content sliced to 1000). -/
def fsSnippet (sub name c : String) : Snippet :=
  { label := sub ++ "/" ++ name, content := pyTake c 1000, origin := SnipOrigin.filesystem }

/-- The `try`/`except` around `self.pipeline.search`: a failed search
(`none`) is logged and treated as zero hits; a successful one contributes
one snippet per hit, uncapped. -/
def ragSnippets : Option (List RagHit) → List Snippet
  | some hits => hits.map ragSnippet
  | none => []

/-- The `for file in files` loop of the scan.  For each file: the
`.endswith(".md")` test, then the read (a raising read is skipped), then
the case-insensitive substring test; on match the snippet is appended and
`if len(matched_content) >= 10: break` leaves the loop. -/
def scanBatch (topic sub : String) (acc : List Snippet) : List FsFile → List Snippet
  | [] => acc
  | f :: rest =>
    if pyEndsWith f.name ".md" then
      match f.content with
      | some c =>
        if pyIn (pyLower topic) (pyLower c) then
          if 10 ≤ (acc ++ [fsSnippet sub f.name c]).length then
            acc ++ [fsSnippet sub f.name c]
          else scanBatch topic sub (acc ++ [fsSnippet sub f.name c]) rest
        else scanBatch topic sub acc rest
      | none => scanBatch topic sub acc rest
    else scanBatch topic sub acc rest

/-- The `for root, dirs, files in os.walk(target_path)` loop: each batch of
files is scanned, then `if len(matched_content) >= 10: break` leaves the
walk. -/
def scanWalk (topic sub : String) (acc : List Snippet) : List (List FsFile) → List Snippet
  | [] => acc
  | b :: rest =>
    if 10 ≤ (scanBatch topic sub acc b).length then scanBatch topic sub acc b
    else scanWalk topic sub (scanBatch topic sub acc b) rest

/-- The `for sub in search_dirs` loop: a missing directory is skipped
(`continue`); note that there is no length test at this level. -/
def scanDirs (topic : String) (acc : List Snippet) : List (String × DirContent) → List Snippet
  | [] => acc
  | (sub, d) :: rest =>
    if d.present then scanDirs topic (scanWalk topic sub acc d.batches) rest
    else scanDirs topic acc rest

/-- The full `matched_content` list built by `meta_analyze`: vector hits
first, then the scan of the three fixed directories in order. -/
def collectSnippets (topic : String) (rag : Option (List RagHit))
    (d1 d2 d3 : DirContent) : List Snippet :=
  scanDirs topic (ragSnippets rag)
    [("01-Analysis", d1), ("02-Literature", d2), ("03-Vault", d3)]

/-- `matched_content[:8]`, the snippets that reach the merged context. -/
def usedSnippets (topic : String) (rag : Option (List RagHit))
    (d1 d2 d3 : DirContent) : List Snippet :=
  (collectSnippets topic rag d1 d2 d3).take 8

/-- The fixed message returned when `matched_content` is empty. -/
def noResultsMsg : String :=
  "🔍 관련 문서를 찾을 수 없습니다. 주제를 더 광범위하게 입력해 보세요."

/-- The two fixed prompt templates of step 3, keyed by `is_debate`, each
carrying the topic and the joined `combined_context`. -/
inductive Prompt where
  | debate (topic context : String)
  | analysis (topic context : String)
deriving DecidableEq

/-- Observable outcome of `meta_analyze`: either a string returned without
consulting the brain, or a call `await self.brain.think(prompt, task_type)`
whose response is returned verbatim. -/
inductive AnalyzeOutcome where
  | returned (msg : String)
  | thinkCall (prompt : Prompt) (taskType : String)
deriving DecidableEq

/-- `ResearchEngine.meta_analyze(topic, is_debate)`, parametrised by the
external world: the vector search outcome and the contents of the three
search directories. -/
def meta_analyze (topic : String) (is_debate : Bool) (rag : Option (List RagHit))
    (d1 d2 d3 : DirContent) : AnalyzeOutcome :=
  let matched := collectSnippets topic rag d1 d2 d3
  if matched.isEmpty then AnalyzeOutcome.returned noResultsMsg
  else
    let ctx := String.intercalate "\n\n" ((usedSnippets topic rag d1 d2 d3).map Snippet.render)
    if is_debate then AnalyzeOutcome.thinkCall (Prompt.debate topic ctx) "debate"
    else AnalyzeOutcome.thinkCall (Prompt.analysis topic ctx) "gemini"

/-- The combined match test of the scan for a single file: recognized
extension, readable, and case-insensitive containment of the topic. -/
def fileMatches (topic : String) (f : FsFile) : Bool :=
  pyEndsWith f.name ".md" &&
    match f.content with
    | some c => pyIn (pyLower topic) (pyLower c)
    | none => false

/-! ## bio_cartridge.py — static data model

`PV` models the heterogeneous nested Python dict/list/str/number values of
the static knowledge tables (floats and ints as exact `ℚ`). -/

inductive PV where
  | s (v : String)
  | q (v : ℚ)
  | arr (vs : List PV)
  | dict (kvs : List (String × PV))

/-- `BioMemory.knowledge_base` (the three static domain records). -/
def knowledge_base : List (String × PV) := [
  ("uterine_organoid", PV.dict [
    ("definition", PV.s "인간 자궁내막 세포로부터 유래한 3D 미니 조직"),
    ("significance", PV.s "여성 생식계 질환 모델링 및 약물 스크리닝"),
    ("research_level", PV.q (85/100)),
    ("key_markers", PV.arr [PV.s "E-cadherin", PV.s "Vimentin", PV.s "Cytokeratin-7"]),
    ("culture_conditions", PV.dict [
      ("temperature", PV.q 37),
      ("co2", PV.q 5),
      ("media", PV.s "Advanced DMEM/F12"),
      ("growth_factors", PV.arr [PV.s "EGF", PV.s "FGF10", PV.s "Wnt3a"])]),
    ("citations", PV.q 250),
    ("recent_papers", PV.arr [])]),
  ("stem_cells", PV.dict [
    ("types", PV.arr [PV.s "ESC (배아줄기세포)", PV.s "iPSC (역분화줄기세포)", PV.s "hESC"]),
    ("differentiation", PV.s "자궁내막으로 분화 유도 프로토콜"),
    ("markers", PV.arr [PV.s "OCT4", PV.s "NANOG", PV.s "SOX2"]),
    ("pluripotency", PV.q (9/10)),
    ("research_level", PV.q (85/100)),
    ("protocols", PV.arr [PV.s "BMP4-induced", PV.s "Activin-induced"])]),
  ("endometrium", PV.dict [
    ("structure", PV.s "자궁 내막 (Uterine endometrium)"),
    ("function", PV.s "배아 착상, 월경 주기 조절"),
    ("cell_types", PV.arr [PV.s "상피세포", PV.s "간질세포", PV.s "면역세포", PV.s "혈관내피세포"]),
    ("menstrual_cycle", PV.arr [PV.s "월경기", PV.s "증식기", PV.s "분비기"]),
    ("research_level", PV.q (8/10))])]

/-- `BioMemory.recall_knowledge`: the entry when the key is present,
`{}` otherwise. -/
def recall_knowledge (topic : String) : PV :=
  match knowledge_base.lookup topic with
  | some v => v
  | none => PV.dict []

/-- `BioValues.evaluate_research_value`'s `value_map`. -/
def value_map : List (String × ℚ) := [
  ("uterine_organoid", 95/100),
  ("stem_cells", 9/10),
  ("endometrium", 85/100),
  ("tissue_engineering", 85/100),
  ("cell_signaling", 3/4)]

/-- `BioValues.evaluate_research_value`: `value_map.get(topic, 0.5)`. -/
def evaluate_research_value (topic : String) : ℚ :=
  (value_map.lookup topic).getD (1/2)

/-- The experiment-intent record consulted by `validate_ethics`.  The
Python function reads exactly the keys `animal_test`,
`requires_human_sample` and `consent` with `dict.get` (a missing key is
falsy, like `False`); any other key of the dict is ignored, so the model
keeps just these three booleans. -/
structure Experiment where
  animal_test : Bool
  requires_human_sample : Bool
  consent : Bool
deriving DecidableEq

/-- `BioValues.validate_ethics`: the animal-test gate first, then the
human-sample consent gate, else pass — each with its fixed message. -/
def validate_ethics (experiment : Experiment) : Bool × String :=
  if experiment.animal_test then
    (false, "❌ 동물 실험 제약: 조직공학 방식 재검토 필요")
  else if experiment.requires_human_sample && !experiment.consent then
    (false, "❌ 인간 샘플 사용 동의 부재")
  else
    (true, "✅ 윤리 검증 통과")

/-- `BioValues.get_emotional_response`'s fixed `responses` table. -/
def emotional_responses : List (String × String) := [
  ("breakthrough", "🔥 매우 흥미로움 (혁신적 발견)"),
  ("null_result", "🤔 의문 (원인 분석 필요)"),
  ("error", "😕 우려 (재현성 확인)"),
  ("success", "😊 만족 (목표 달성)"),
  ("publication", "🎉 축하 (인정 획득)")]

/-- `BioValues.get_emotional_response`: `responses.get(event, "중립")`. -/
def get_emotional_response (event : String) : String :=
  (emotional_responses.lookup event).getD "중립"

/-! ## BioSkills -/

/-- `ResearchDomain`, the fixed enum of biology domains. -/
inductive ResearchDomain where
  | UTERINE_ORGANOID
  | ENDOMETRIUM
  | STEM_CELLS
  | TISSUE_ENGINEERING
  | CELL_SIGNALING
deriving DecidableEq

/-- The `.value` string of each enum member. -/
def ResearchDomain.value : ResearchDomain → String
  | ResearchDomain.UTERINE_ORGANOID => "uterine_organoid"
  | ResearchDomain.ENDOMETRIUM => "endometrium"
  | ResearchDomain.STEM_CELLS => "stem_cells"
  | ResearchDomain.TISSUE_ENGINEERING => "tissue_engineering"
  | ResearchDomain.CELL_SIGNALING => "cell_signaling"

/-- The `BiologicalHypothesis` dataclass. -/
structure BiologicalHypothesis where
  hypothesis : String
  domain : ResearchDomain
  evidence : List String
  confidence : ℚ
  experimental_design : String

/-- `BioSkills.protocols` (static table; only its keys and values are read
by the model, keys by `activate`). -/
def protocols : List (String × PV) := [
  ("organoid_culture", PV.dict [
    ("name", PV.s "오가노이드 3D 배양"),
    ("duration_days", PV.q 14),
    ("steps", PV.arr [PV.s "세포 수집 및 정제", PV.s "Matrigel 혼합",
      PV.s "3D 배양 시스템 구성", PV.s "호르몬 자극"]),
    ("critical_points", PV.arr [PV.s "온도", PV.s "pH", PV.s "성장 인자"])]),
  ("differentiation", PV.dict [
    ("name", PV.s "줄기세포 분화 유도"),
    ("duration_days", PV.q 21),
    ("steps", PV.arr [PV.s "ESC 준비", PV.s "BMP4 처리",
      PV.s "Activin A 처리", PV.s "선별 및 확인"]),
    ("efficiency", PV.q (3/4))])]

/-- `BioSkills._select_methods`: `method_map.get(domain, [])`. -/
def select_methods : ResearchDomain → List String
  | ResearchDomain.UTERINE_ORGANOID =>
      ["3D culture", "immunofluorescence", "qPCR", "confocal microscopy"]
  | ResearchDomain.STEM_CELLS =>
      ["differentiation", "flow cytometry", "RNA-seq", "immunostaining"]
  | ResearchDomain.ENDOMETRIUM =>
      ["tissue sectioning", "histology", "immunohistochemistry"]
  | _ => []

/-- `BioSkills._design_controls` (constant). -/
def design_controls : List (String × List String) := [
  ("positive", ["프로토콜 기존 결과", "양성 마커"]),
  ("negative", ["미처리 세포", "무관 마커"]),
  ("internal", ["하우스키핑 유전자"])]

/-- `BioSkills._estimate_timeline` (constant). -/
def estimate_timeline : List (String × Nat) := [
  ("preparation", 3), ("execution", 14), ("analysis", 7),
  ("writing", 10), ("total", 34)]

/-- `BioSkills._calculate_sample_size` (constant 30). -/
def calculate_sample_size : Nat := 30

/-- `BioSkills._define_success_criteria` (constant). -/
def define_success_criteria : List String := [
  "P < 0.05 통계적 유의성", "재현성 검증 (3회 반복)", "생물학적 의미 입증"]

/-- The dict built by `BioSkills.design_experiment`. -/
structure Design where
  hypothesis : String
  domain : String
  methods : List String
  controls : List (String × List String)
  timeline : List (String × Nat)
  success_criteria : List String
  statistical_power : ℚ
  sample_size : Nat
deriving DecidableEq

/-- `BioSkills.design_experiment`. -/
def design_experiment (h : BiologicalHypothesis) : Design :=
  { hypothesis := h.hypothesis
    domain := h.domain.value
    methods := select_methods h.domain
    controls := design_controls
    timeline := estimate_timeline
    success_criteria := define_success_criteria
    statistical_power := 4/5
    sample_size := calculate_sample_size }

/-! ## BioSkills.analyze_data

`statistics.mean`, sample `statistics.stdev` (which raises
`StatisticsError` for fewer than two data points), `statistics.median`,
`min`, `max`.  The samples are modelled as exact rationals; the square
root forces `ℝ` for the `stdev` and `cv` fields.  `analyze_data` is
`Option`-valued: `none` models an uncaught exception. -/

def pyMean (xs : List ℚ) : ℚ := xs.sum / xs.length

/-- Sample variance with the n-1 denominator, the square of
`statistics.stdev` (only used where the code's guards ensure n ≥ 2). -/
def pySampleVar (xs : List ℚ) : ℚ :=
  ((xs.map (fun x => (x - pyMean xs) ^ 2)).sum) / ((xs.length : ℚ) - 1)

noncomputable def pyStdev (xs : List ℚ) : ℝ := Real.sqrt (pySampleVar xs)

/-- Insertion of one element into a sorted list; `pySorted` models
`sorted(xs)` (the sorted list of a list of numbers is unique, so any
sorting algorithm agrees with Python's). -/
def insertSorted (x : ℚ) : List ℚ → List ℚ
  | [] => [x]
  | y :: ys => if x ≤ y then x :: y :: ys else y :: insertSorted x ys

def pySorted (xs : List ℚ) : List ℚ := xs.foldr insertSorted []

/-- `statistics.median`: middle element for odd length, mean of the two
middle elements for even length (only called on nonempty input). -/
def pyMedian (xs : List ℚ) : ℚ :=
  let s := pySorted xs
  let n := xs.length
  if n % 2 = 1 then s.getD (n / 2) 0
  else (s.getD (n / 2 - 1) 0 + s.getD (n / 2) 0) / 2

/-- `min(xs)` on a nonempty list. -/
def pyMin : List ℚ → ℚ
  | [] => 0
  | x :: xs => xs.foldl min x

/-- `max(xs)` on a nonempty list. -/
def pyMax : List ℚ → ℚ
  | [] => 0
  | x :: xs => xs.foldl max x

/-- The analysis dict of `BioSkills.analyze_data`. -/
structure Stats where
  mean : ℚ
  stdev : ℝ
  median : ℚ
  min : ℚ
  max : ℚ
  n : Nat
  cv : ℝ

/-- Return value of `BioSkills.analyze_data`: `{}` for empty input, else
the stats dict. -/
inductive AnalyzeResult where
  | empty
  | stats (st : Stats)

/-- `BioSkills.analyze_data(raw_data)`.  The `stdev` entry is guarded by
`if len(raw_data) > 1 else 0`, but the `cv` entry calls
`statistics.stdev(raw_data)` unguarded whenever the mean is nonzero, so a
one-element sample with nonzero mean raises `StatisticsError` mid-dict:
that case is `none`. -/
noncomputable def analyze_data (raw_data : List ℚ) : Option AnalyzeResult :=
  if raw_data = [] then some AnalyzeResult.empty
  else if pyMean raw_data ≠ 0 ∧ raw_data.length < 2 then none
  else some (AnalyzeResult.stats
    { mean := pyMean raw_data
      stdev := if 1 < raw_data.length then pyStdev raw_data else 0
      median := pyMedian raw_data
      min := pyMin raw_data
      max := pyMax raw_data
      n := raw_data.length
      cv := if pyMean raw_data ≠ 0 then pyStdev raw_data / (pyMean raw_data : ℝ) else 0 })

/-! ## BioCartridge — the session state machine -/

/-- The dict appended to `self.research_projects`. -/
structure Project where
  id : String
  hypothesis : String
  design : Design
  status : String
  ethics : String
deriving DecidableEq

/-- The mutable state of the `BioCartridge` instance: `active`, `mode`
and the project ledger (constructed as
`active=False, mode="standby", research_projects=[]`). -/
structure BioCartridge where
  active : Bool
  mode : String
  research_projects : List Project
deriving DecidableEq

/-- The freshly constructed cartridge. -/
def initCartridge : BioCartridge :=
  { active := false, mode := "standby", research_projects := [] }

/-- The dict returned by `BioCartridge.activate`. -/
structure ActivationResult where
  status : String
  domain : String
  expertise : String
  confidence : ℚ
  ethical_mode : String
  available_methods : List String
deriving DecidableEq

/-- `BioCartridge.activate`: sets `active`/`mode` and returns the fixed
activation dict (`available_methods` is `self.skills.protocols.keys()`). -/
def activate (s : BioCartridge) : BioCartridge × ActivationResult :=
  ({ s with active := true, mode := "active" },
   { status := "activated"
     domain := "biology"
     expertise := "uterine organoid & stem cell research"
     confidence := 85/100
     ethical_mode := "strict"
     available_methods := protocols.map Prod.fst })

/-- `BioCartridge.deactivate`. -/
def deactivate (s : BioCartridge) : BioCartridge :=
  { s with active := false, mode := "standby" }

/-- Return value of `BioCartridge.process_query`: the inactive-error dict
`{"error": ..., "status": "inactive"}` or the full result dict. -/
inductive QueryResult where
  | err (error status : String)
  | ok (query domain : String) (knowledge : PV) (research_value : ℚ)
       (emotional_response mode status : String)

/-- The `domain` field of a query result, when present. -/
def QueryResult.domainOf : QueryResult → Option String
  | QueryResult.err _ _ => none
  | QueryResult.ok _ d _ _ _ _ _ => some d

/-- The `status` field of a query result. -/
def QueryResult.statusOf : QueryResult → String
  | QueryResult.err _ st => st
  | QueryResult.ok _ _ _ _ _ _ st => st

/-- `BioCartridge.process_query`: inactive guard, then the keyword
dispatch on the lowercased query — `"organoid"` first, then `"stem"`,
else the endometrium fallback with empty knowledge and value 0.5. -/
def process_query (s : BioCartridge) (query : String) : QueryResult :=
  if !s.active then QueryResult.err "Bio-Cartridge not active" "inactive"
  else
    let lower_query := pyLower query
    if pyIn "organoid" lower_query then
      QueryResult.ok query ResearchDomain.UTERINE_ORGANOID.value
        (recall_knowledge "uterine_organoid") (evaluate_research_value "uterine_organoid")
        (get_emotional_response "interest") s.mode "processed"
    else if pyIn "stem" lower_query then
      QueryResult.ok query ResearchDomain.STEM_CELLS.value
        (recall_knowledge "stem_cells") (evaluate_research_value "stem_cells")
        (get_emotional_response "interest") s.mode "processed"
    else
      QueryResult.ok query ResearchDomain.ENDOMETRIUM.value
        (PV.dict []) (1/2) (get_emotional_response "interest") s.mode "processed"

/-- Return value of `BioCartridge.start_research_project`: the inactive
and ethics error dicts carry only an `error` key (no `status`); success
returns the project dict. -/
inductive ProjectResult where
  | err (error : String)
  | ok (p : Project)
deriving DecidableEq

/-- The `status` field of a project result, when the dict has one (the
error dicts of `start_research_project` have none). -/
def ProjectResult.statusField : ProjectResult → Option String
  | ProjectResult.err _ => none
  | ProjectResult.ok p => some p.status

/-- `f"{n:03d}"`: decimal digits left-padded with zeros to width 3. -/
def pad3 (n : Nat) : String :=
  let s := toString n
  if s.length < 3 then String.mk (List.replicate (3 - s.length) '0') ++ s else s

/-- The fixed, hardcoded intent record that `start_research_project`
passes to `validate_ethics` (not derived from the hypothesis). -/
def fixed_intent : Experiment :=
  { animal_test := false, requires_human_sample := true, consent := true }

/-- `BioCartridge.start_research_project`: inactive guard, ethics
validation of the fixed intent, experiment design, then append of the
project dict with the sequential zero-padded id. -/
def start_research_project (s : BioCartridge) (hyp : BiologicalHypothesis) :
    BioCartridge × ProjectResult :=
  if !s.active then (s, ProjectResult.err "Bio-Cartridge not active")
  else
    let v := validate_ethics fixed_intent
    if !v.1 then (s, ProjectResult.err v.2)
    else
      let project : Project :=
        { id := "BIO_" ++ pad3 (s.research_projects.length + 1)
          hypothesis := hyp.hypothesis
          design := design_experiment hyp
          status := "initiated"
          ethics := "approved" }
      ({ s with research_projects := s.research_projects ++ [project] },
       ProjectResult.ok project)

/-! ## Lemmas about the filesystem scan -/

theorem scanBatch_mono (topic sub : String) (fs : List FsFile) :
    ∀ acc : List Snippet, acc.length ≤ (scanBatch topic sub acc fs).length := by
  induction fs with
  | nil => intro acc; simp [scanBatch]
  | cons f rest ih =>
    intro acc
    simp only [scanBatch]
    split
    · split
      · split
        · split
          · simp
          · exact le_trans (by simp) (ih _)
        · exact ih acc
      · exact ih acc
    · exact ih acc

theorem scanBatch_le10 (topic sub : String) (fs : List FsFile) :
    ∀ acc : List Snippet, acc.length < 10 → (scanBatch topic sub acc fs).length ≤ 10 := by
  induction fs with
  | nil => intro acc h; simp [scanBatch]; omega
  | cons f rest ih =>
    intro acc h
    simp only [scanBatch]
    split
    · split
      · split
        · split
          · simp; omega
          · rename_i hlen
            exact ih _ (by simp at hlen ⊢; omega)
        · exact ih acc h
      · exact ih acc h
    · exact ih acc h

theorem scanBatch_add1 (topic sub : String) (fs : List FsFile) :
    ∀ acc : List Snippet, 10 ≤ acc.length →
      (scanBatch topic sub acc fs).length ≤ acc.length + 1 := by
  induction fs with
  | nil => intro acc _; simp [scanBatch]
  | cons f rest ih =>
    intro acc h
    simp only [scanBatch]
    split
    · split
      · split
        · split
          · simp
          · rename_i hlen
            exfalso; simp at hlen; omega
        · exact ih acc h
      · exact ih acc h
    · exact ih acc h

theorem scanWalk_mono (topic sub : String) (bs : List (List FsFile)) :
    ∀ acc : List Snippet, acc.length ≤ (scanWalk topic sub acc bs).length := by
  induction bs with
  | nil => intro acc; simp [scanWalk]
  | cons b rest ih =>
    intro acc
    simp only [scanWalk]
    split
    · exact scanBatch_mono topic sub b acc
    · exact le_trans (scanBatch_mono topic sub b acc) (ih _)

theorem scanWalk_le10 (topic sub : String) (bs : List (List FsFile)) :
    ∀ acc : List Snippet, acc.length < 10 → (scanWalk topic sub acc bs).length ≤ 10 := by
  induction bs with
  | nil => intro acc h; simp [scanWalk]; omega
  | cons b rest ih =>
    intro acc h
    simp only [scanWalk]
    split
    · exact scanBatch_le10 topic sub b acc h
    · rename_i hlen
      exact ih _ (by omega)

theorem scanWalk_add1 (topic sub : String) (bs : List (List FsFile)) :
    ∀ acc : List Snippet, 10 ≤ acc.length →
      (scanWalk topic sub acc bs).length ≤ acc.length + 1 := by
  induction bs with
  | nil => intro acc _; simp [scanWalk]
  | cons b rest ih =>
    intro acc h
    simp only [scanWalk]
    split
    · exact scanBatch_add1 topic sub b acc h
    · rename_i hlen
      exfalso
      have := scanBatch_mono topic sub b acc
      omega

theorem scanDirs_ge10 (topic : String) (ds : List (String × DirContent)) :
    ∀ acc : List Snippet, 10 ≤ acc.length →
      (scanDirs topic acc ds).length ≤ acc.length + ds.length := by
  induction ds with
  | nil => intro acc _; simp [scanDirs]
  | cons p rest ih =>
    intro acc h
    obtain ⟨sub, d⟩ := p
    simp only [scanDirs]
    split
    · have h1 := scanWalk_add1 topic sub d.batches acc h
      have h2 := scanWalk_mono topic sub d.batches acc
      have := ih (scanWalk topic sub acc d.batches) (by omega)
      simp only [List.length_cons]
      omega
    · have := ih acc h
      simp only [List.length_cons]
      omega

theorem scanDirs_le (topic : String) (ds : List (String × DirContent)) :
    ∀ acc : List Snippet, acc.length < 10 →
      (scanDirs topic acc ds).length ≤ 9 + ds.length := by
  induction ds with
  | nil => intro acc h; simp [scanDirs]; omega
  | cons p rest ih =>
    intro acc h
    obtain ⟨sub, d⟩ := p
    simp only [scanDirs]
    split
    · by_cases hw : (scanWalk topic sub acc d.batches).length < 10
      · have := ih _ hw
        simp only [List.length_cons]
        omega
      · have h1 := scanWalk_le10 topic sub d.batches acc h
        have := scanDirs_ge10 topic rest (scanWalk topic sub acc d.batches) (by omega)
        simp only [List.length_cons]
        omega
    · have := ih acc h
      simp only [List.length_cons]
      omega

theorem scanBatch_no_match (topic sub : String) :
    ∀ fs : List FsFile, (∀ f ∈ fs, fileMatches topic f = false) →
      ∀ acc : List Snippet, scanBatch topic sub acc fs = acc := by
  intro fs
  induction fs with
  | nil => intro _ acc; simp [scanBatch]
  | cons f rest ih =>
    intro h acc
    have hf : fileMatches topic f = false := h f (by simp)
    have hrest : ∀ g ∈ rest, fileMatches topic g = false := fun g hg => h g (by simp [hg])
    simp only [scanBatch]
    split
    · rename_i hEnd
      rcases hc : f.content with _ | c
      · simp only [hc]
        exact ih hrest acc
      · simp only [hc]
        have hin : pyIn (pyLower topic) (pyLower c) = false := by
          simpa [fileMatches, hEnd, hc] using hf
        simp only [hin]
        simp only [Bool.false_eq_true, if_false]
        exact ih hrest acc
    · exact ih hrest acc

theorem scanWalk_no_match (topic sub : String) :
    ∀ bs : List (List FsFile), (∀ b ∈ bs, ∀ f ∈ b, fileMatches topic f = false) →
      ∀ acc : List Snippet, scanWalk topic sub acc bs = acc := by
  intro bs
  induction bs with
  | nil => intro _ acc; simp [scanWalk]
  | cons b rest ih =>
    intro h acc
    have hb := scanBatch_no_match topic sub b (h b (by simp)) acc
    have hrest : ∀ b' ∈ rest, ∀ f ∈ b', fileMatches topic f = false :=
      fun b' hb' => h b' (by simp [hb'])
    simp only [scanWalk, hb]
    split
    · rfl
    · exact ih hrest acc

theorem scanDirs_no_match (topic : String) :
    ∀ ds : List (String × DirContent),
      (∀ p ∈ ds, ∀ b ∈ p.2.batches, ∀ f ∈ b, fileMatches topic f = false) →
      ∀ acc : List Snippet, scanDirs topic acc ds = acc := by
  intro ds
  induction ds with
  | nil => intro _ acc; simp [scanDirs]
  | cons p rest ih =>
    intro h acc
    obtain ⟨sub, d⟩ := p
    have hd : ∀ b ∈ d.batches, ∀ f ∈ b, fileMatches topic f = false :=
      fun b hb => h (sub, d) (by simp) b hb
    have hrest : ∀ q ∈ rest, ∀ b ∈ q.2.batches, ∀ f ∈ b, fileMatches topic f = false :=
      fun q hq => h q (by simp [hq])
    simp only [scanDirs]
    split
    · rw [scanWalk_no_match topic sub d.batches hd acc]
      exact ih hrest acc
    · exact ih hrest acc

theorem scanBatch_content (topic sub : String) :
    ∀ (fs : List FsFile) (acc : List Snippet),
      (∀ s ∈ acc, s.content.length ≤ 1000) →
      ∀ s ∈ scanBatch topic sub acc fs, s.content.length ≤ 1000 := by
  intro fs
  induction fs with
  | nil => intro acc hacc; simpa [scanBatch] using hacc
  | cons f rest ih =>
    intro acc hacc
    have happ : ∀ c, ∀ s ∈ acc ++ [fsSnippet sub f.name c], s.content.length ≤ 1000 := by
      intro c s hs
      rcases List.mem_append.mp hs with h1 | h2
      · exact hacc s h1
      · simp only [List.mem_singleton] at h2
        subst h2
        simpa [fsSnippet] using pyTake_length_le c 1000
    simp only [scanBatch]
    split
    · split
      · split
        · split
          · exact happ _
          · exact ih _ (happ _)
        · exact ih acc hacc
      · exact ih acc hacc
    · exact ih acc hacc

theorem scanWalk_content (topic sub : String) :
    ∀ (bs : List (List FsFile)) (acc : List Snippet),
      (∀ s ∈ acc, s.content.length ≤ 1000) →
      ∀ s ∈ scanWalk topic sub acc bs, s.content.length ≤ 1000 := by
  intro bs
  induction bs with
  | nil => intro acc hacc; simpa [scanWalk] using hacc
  | cons b rest ih =>
    intro acc hacc
    simp only [scanWalk]
    split
    · exact scanBatch_content topic sub b acc hacc
    · exact ih _ (scanBatch_content topic sub b acc hacc)

theorem scanDirs_content (topic : String) :
    ∀ (ds : List (String × DirContent)) (acc : List Snippet),
      (∀ s ∈ acc, s.content.length ≤ 1000) →
      ∀ s ∈ scanDirs topic acc ds, s.content.length ≤ 1000 := by
  intro ds
  induction ds with
  | nil => intro acc hacc; simpa [scanDirs] using hacc
  | cons p rest ih =>
    intro acc hacc
    obtain ⟨sub, d⟩ := p
    simp only [scanDirs]
    split
    · exact ih _ (scanWalk_content topic sub d.batches acc hacc)
    · exact ih acc hacc

theorem ragSnippets_content (rag : Option (List RagHit)) :
    ∀ s ∈ ragSnippets rag, s.content.length ≤ 1000 := by
  rcases rag with _ | hits
  · simp [ragSnippets]
  · intro s hs
    simp only [ragSnippets, List.mem_map] at hs
    obtain ⟨h, _, rfl⟩ := hs
    simpa [ragSnippet] using pyTake_length_le h.content 1000

theorem collectSnippets_content (topic : String) (rag : Option (List RagHit))
    (d1 d2 d3 : DirContent) :
    ∀ s ∈ collectSnippets topic rag d1 d2 d3, s.content.length ≤ 1000 :=
  scanDirs_content topic _ _ (ragSnippets_content rag)

/-! ## Concrete fixtures used by counterexamples and witnesses -/

/-- A readable markdown file whose content is the single character x. -/
def exFile : FsFile := { name := "a.md", content := some "x" }

/-- A directory whose single walk step lists ten copies of `exFile`. -/
def exDirTen : DirContent := { present := true, batches := [List.replicate 10 exFile] }

/-- A directory whose single walk step lists one copy of `exFile`. -/
def exDirOne : DirContent := { present := true, batches := [[exFile]] }

/-- A present directory in which the walk yields nothing. -/
def exDirEmpty : DirContent := { present := true, batches := [] }

/-- A vector hit whose content is 1500 characters long. -/
def bigHit : RagHit := { source := "s", content := String.mk (List.replicate 1500 'a') }

/-- A list of ten already-collected snippets. -/
def snipTen : List Snippet :=
  List.replicate 10 { label := "l", content := "c", origin := SnipOrigin.vector }

/-- A concrete hypothesis record. -/
def hyp0 : BiologicalHypothesis :=
  { hypothesis := "Hormone stimulation enhances organoid maturation"
    domain := ResearchDomain.UTERINE_ORGANOID
    evidence := ["Literature support", "Preliminary data"]
    confidence := 7/10
    experimental_design := "3D culture with hormones" }

/-- A second concrete hypothesis record. -/
def hyp1 : BiologicalHypothesis :=
  { hypothesis := "BMP4 improves differentiation efficiency"
    domain := ResearchDomain.STEM_CELLS
    evidence := ["Protocol data"]
    confidence := 1/2
    experimental_design := "BMP4-induced differentiation" }

/-- An active session with an empty ledger. -/
def sAct : BioCartridge := { active := true, mode := "active", research_projects := [] }

/-! ## The claims -/

/-- C1: `BioSkills.analyze_data` on `[]` returns the empty dict and on
`[2,4,6]` returns mean 4, median 4, min 2, max 6, n 3 — but on `[5.0]`
the unguarded `statistics.stdev` call inside the `cv` entry raises
`StatisticsError` (modelled as `none`), contradicting the claim that every
one-element input returns normally with stdev 0. -/
theorem c1_analyze_data_single_raises :
    analyze_data [] = some AnalyzeResult.empty
    ∧ analyze_data [5] = none
    ∧ ∃ st, analyze_data [2, 4, 6] = some (AnalyzeResult.stats st)
        ∧ st.mean = 4 ∧ st.median = 4 ∧ st.min = 2 ∧ st.max = 6 ∧ st.n = 3 := by
  refine ⟨by simp [analyze_data], ?_, ?_⟩
  · have h : pyMean [5] = 5 := by norm_num [pyMean]
    simp [analyze_data, h]
  · have hm : pyMean [2, 4, 6] = 4 := by norm_num [pyMean]
    have hne : ([2, 4, 6] : List ℚ) ≠ [] := by simp
    have hcond : ¬(pyMean [2, 4, 6] ≠ 0 ∧ ([2, 4, 6] : List ℚ).length < 2) := by simp
    refine ⟨{ mean := pyMean [2, 4, 6]
              stdev := if 1 < ([2, 4, 6] : List ℚ).length then pyStdev [2, 4, 6] else 0
              median := pyMedian [2, 4, 6]
              min := pyMin [2, 4, 6]
              max := pyMax [2, 4, 6]
              n := ([2, 4, 6] : List ℚ).length
              cv := if pyMean [2, 4, 6] ≠ 0 then pyStdev [2, 4, 6] / (pyMean [2, 4, 6] : ℝ)
                    else 0 }, ?_, hm, by decide, by decide, by decide, rfl⟩
    unfold analyze_data
    rw [if_neg hne, if_neg hcond]

/-- C2 counterexample: with no vector hits, a first directory holding ten
matching files and two further directories holding one matching file each,
twelve snippets are collected — the 10-snippet stop is not global. -/
theorem c2_cap_counterexample :
    10 < (collectSnippets "x" (some []) exDirTen exDirOne exDirOne).length := by decide

/-- C2 (amended): the scan stops per directory once ten snippets are
collected — a directory entered with ten or more already collected adds at
most one more — so with at most five vector hits the total collected never
exceeds twelve. -/
theorem c2_cap_amended (topic : String) (rag : Option (List RagHit)) (d1 d2 d3 : DirContent)
    (hrag : (ragSnippets rag).length ≤ 5) :
    (collectSnippets topic rag d1 d2 d3).length ≤ 12
    ∧ ∀ (sub : String) (acc : List Snippet) (bs : List (List FsFile)),
        10 ≤ acc.length → (scanWalk topic sub acc bs).length ≤ acc.length + 1 := by
  constructor
  · have h := scanDirs_le topic
      [("01-Analysis", d1), ("02-Literature", d2), ("03-Vault", d3)]
      (ragSnippets rag) (by omega)
    simp only [List.length_cons, List.length_nil] at h
    unfold collectSnippets
    omega
  · intro sub acc bs h
    exact scanWalk_add1 topic sub bs acc h

theorem c2_cap_amended_witness :
    (collectSnippets "t" none exDirOne exDirOne exDirOne).length ≤ 12
    ∧ (scanWalk "t" "01-Analysis" snipTen []).length ≤ snipTen.length + 1 :=
  ⟨(c2_cap_amended "t" none exDirOne exDirOne exDirOne (by decide)).1,
   (c2_cap_amended "t" none exDirOne exDirOne exDirOne (by decide)).2
     "01-Analysis" snipTen [] (by decide)⟩

/-- C3 counterexample: on the freshly constructed (inactive) cartridge,
`start_research_project` returns the error dict
`{"error": "Bio-Cartridge not active"}`, which has no `status` key at all
— so its result does not carry status `"inactive"` as claimed. -/
theorem c3_inactive_status_counterexample :
    ProjectResult.statusField (start_research_project initCartridge hyp0).2 = none
    ∧ ProjectResult.statusField (start_research_project initCartridge hyp0).2
        ≠ some "inactive" := by
  constructor
  · rfl
  · intro h
    simp [start_research_project, initCartridge, ProjectResult.statusField] at h

/-- C3 (amended): called while inactive, `process_query` returns the
structured error dict with status `"inactive"`, while
`start_research_project` returns a structured error dict carrying only the
error message and no status field; after `activate()` both succeed. -/
theorem c3_inactive_amended (s : BioCartridge) (q : String) (hyp : BiologicalHypothesis)
    (h : s.active = false) :
    process_query s q = QueryResult.err "Bio-Cartridge not active" "inactive"
    ∧ start_research_project s hyp = (s, ProjectResult.err "Bio-Cartridge not active")
    ∧ QueryResult.statusOf (process_query (activate s).1 q) = "processed"
    ∧ (start_research_project (activate s).1 hyp).2
        = ProjectResult.ok
            { id := "BIO_" ++ pad3 (s.research_projects.length + 1)
              hypothesis := hyp.hypothesis
              design := design_experiment hyp
              status := "initiated"
              ethics := "approved" } := by
  refine ⟨?_, ?_, ?_, ?_⟩
  · simp [process_query, h]
  · simp [start_research_project, h]
  · by_cases h1 : pyIn "organoid" (pyLower q) <;>
      by_cases h2 : pyIn "stem" (pyLower q) <;>
      simp [process_query, activate, h1, h2, QueryResult.statusOf]
  · simp [start_research_project, activate, validate_ethics, fixed_intent]

theorem c3_inactive_amended_witness :
    process_query initCartridge "hi" = QueryResult.err "Bio-Cartridge not active" "inactive"
    ∧ start_research_project initCartridge hyp0
        = (initCartridge, ProjectResult.err "Bio-Cartridge not active")
    ∧ QueryResult.statusOf (process_query (activate initCartridge).1 "hi") = "processed"
    ∧ (start_research_project (activate initCartridge).1 hyp0).2
        = ProjectResult.ok
            { id := "BIO_" ++ pad3 (initCartridge.research_projects.length + 1)
              hypothesis := hyp0.hypothesis
              design := design_experiment hyp0
              status := "initiated"
              ethics := "approved" } :=
  c3_inactive_amended initCartridge "hi" hyp0 rfl

/-- C4: at most the first eight collected snippets are joined into the
merged context of `meta_analyze`, and every collected snippet's content
part — vector hit or filesystem match — is at most 1000 characters. -/
theorem c4_context_caps (topic : String) (rag : Option (List RagHit))
    (d1 d2 d3 : DirContent) :
    (usedSnippets topic rag d1 d2 d3).length ≤ 8
    ∧ ∀ s ∈ collectSnippets topic rag d1 d2 d3, s.content.length ≤ 1000 := by
  constructor
  · simp [usedSnippets]
  · exact collectSnippets_content topic rag d1 d2 d3

theorem c4_context_caps_witness :
    (usedSnippets "t" (some [bigHit]) exDirEmpty exDirEmpty exDirEmpty).length ≤ 8
    ∧ (ragSnippet bigHit).content.length ≤ 1000 :=
  ⟨(c4_context_caps "t" (some [bigHit]) exDirEmpty exDirEmpty exDirEmpty).1,
   (c4_context_caps "t" (some [bigHit]) exDirEmpty exDirEmpty exDirEmpty).2
     (ragSnippet bigHit)
     (by simp [collectSnippets, scanDirs, scanWalk, ragSnippets, exDirEmpty])⟩

/-- C5: if the vector search fails or returns no hits and no scanned file
matches the topic, `meta_analyze` returns exactly the fixed no-results
message and never calls `brain.think`. -/
theorem c5_no_results (topic : String) (is_debate : Bool) (rag : Option (List RagHit))
    (d1 d2 d3 : DirContent)
    (hrag : ragSnippets rag = [])
    (hfs : ∀ d ∈ [d1, d2, d3], ∀ b ∈ d.batches, ∀ f ∈ b, fileMatches topic f = false) :
    meta_analyze topic is_debate rag d1 d2 d3 = AnalyzeOutcome.returned noResultsMsg
    ∧ ∀ p t, meta_analyze topic is_debate rag d1 d2 d3 ≠ AnalyzeOutcome.thinkCall p t := by
  have h' : ∀ p ∈ [("01-Analysis", d1), ("02-Literature", d2), ("03-Vault", d3)],
      ∀ b ∈ p.2.batches, ∀ f ∈ b, fileMatches topic f = false := by
    intro p hp
    simp only [List.mem_cons, List.not_mem_nil, or_false] at hp
    rcases hp with rfl | rfl | rfl
    · exact hfs d1 (by simp)
    · exact hfs d2 (by simp)
    · exact hfs d3 (by simp)
  have hcollect : collectSnippets topic rag d1 d2 d3 = [] := by
    unfold collectSnippets
    rw [scanDirs_no_match topic _ h', hrag]
  constructor
  · simp [meta_analyze, hcollect]
  · intro p t
    simp [meta_analyze, hcollect]

theorem c5_no_results_witness :
    meta_analyze "t" false none exDirEmpty exDirEmpty exDirEmpty
      = AnalyzeOutcome.returned noResultsMsg :=
  (c5_no_results "t" false none exDirEmpty exDirEmpty exDirEmpty rfl
    (by simp [exDirEmpty])).1

/-- C6: `validate_ethics` fails on any intent with animal_test set (the
animal-test gate precedes the consent gate), fails on a human-sample
intent without consent, and passes when neither animal test nor human
sample is involved — each with its fixed message. -/
theorem c6_validate_ethics_cases (e : Experiment) :
    (e.animal_test = true →
      validate_ethics e = (false, "❌ 동물 실험 제약: 조직공학 방식 재검토 필요"))
    ∧ (e.animal_test = false → e.requires_human_sample = true → e.consent = false →
      validate_ethics e = (false, "❌ 인간 샘플 사용 동의 부재"))
    ∧ (e.animal_test = false → e.requires_human_sample = false →
      validate_ethics e = (true, "✅ 윤리 검증 통과")) := by
  obtain ⟨a, r, c⟩ := e
  cases a <;> cases r <;> cases c <;> simp [validate_ethics]

theorem c6_validate_ethics_witness :
    validate_ethics { animal_test := true, requires_human_sample := true, consent := false }
      = (false, "❌ 동물 실험 제약: 조직공학 방식 재검토 필요")
    ∧ validate_ethics { animal_test := false, requires_human_sample := true, consent := false }
      = (false, "❌ 인간 샘플 사용 동의 부재")
    ∧ validate_ethics { animal_test := false, requires_human_sample := false, consent := false }
      = (true, "✅ 윤리 검증 통과") :=
  ⟨(c6_validate_ethics_cases _).1 rfl,
   (c6_validate_ethics_cases _).2.1 rfl rfl rfl,
   (c6_validate_ethics_cases _).2.2 rfl rfl⟩

/-- C7: the query router classifies by substring in priority order — a
query containing "organoid" (case-insensitively) maps to the
uterine-organoid domain even if "stem" also occurs, a query containing
"stem" but not "organoid" maps to stem cells, and anything else falls back
to the endometrium domain. -/
theorem c7_query_routing (s : BioCartridge) (q : String) (ha : s.active = true) :
    (pyIn "organoid" (pyLower q) = true →
      QueryResult.domainOf (process_query s q) = some ResearchDomain.UTERINE_ORGANOID.value)
    ∧ (pyIn "organoid" (pyLower q) = false → pyIn "stem" (pyLower q) = true →
      QueryResult.domainOf (process_query s q) = some ResearchDomain.STEM_CELLS.value)
    ∧ (pyIn "organoid" (pyLower q) = false → pyIn "stem" (pyLower q) = false →
      QueryResult.domainOf (process_query s q) = some ResearchDomain.ENDOMETRIUM.value) := by
  refine ⟨fun h1 => ?_, fun h1 h2 => ?_, fun h1 h2 => ?_⟩ <;>
    simp [process_query, ha, h1, QueryResult.domainOf, *]

theorem c7_query_routing_witness :
    QueryResult.domainOf (process_query sAct "Stem-cell derived Organoids")
      = some ResearchDomain.UTERINE_ORGANOID.value
    ∧ QueryResult.domainOf (process_query sAct "stem cell niche")
      = some ResearchDomain.STEM_CELLS.value
    ∧ QueryResult.domainOf (process_query sAct "hello")
      = some ResearchDomain.ENDOMETRIUM.value :=
  ⟨(c7_query_routing sAct "Stem-cell derived Organoids" rfl).1 (by decide),
   (c7_query_routing sAct "stem cell niche" rfl).2.1 (by decide) (by decide),
   (c7_query_routing sAct "hello" rfl).2.2 (by decide) (by decide)⟩

/-- C8: on an active session two consecutive successful calls to
`start_research_project` yield the sequential zero-padded ids
`BIO_{n+1:03d}` and `BIO_{n+2:03d}` — strictly increasing counters — and
from an empty ledger concretely `BIO_001` then `BIO_002`. -/
theorem c8_project_ids (s : BioCartridge) (h1 h2 : BiologicalHypothesis)
    (ha : s.active = true) :
    ∃ p1 p2,
      (start_research_project s h1).2 = ProjectResult.ok p1
      ∧ (start_research_project (start_research_project s h1).1 h2).2 = ProjectResult.ok p2
      ∧ p1.id = "BIO_" ++ pad3 (s.research_projects.length + 1)
      ∧ p2.id = "BIO_" ++ pad3 (s.research_projects.length + 2)
      ∧ s.research_projects.length + 1 < s.research_projects.length + 2
      ∧ (s.research_projects = [] → p1.id = "BIO_001" ∧ p2.id = "BIO_002") := by
  refine ⟨{ id := "BIO_" ++ pad3 (s.research_projects.length + 1)
            hypothesis := h1.hypothesis
            design := design_experiment h1
            status := "initiated"
            ethics := "approved" },
          { id := "BIO_" ++ pad3 (s.research_projects.length + 2)
            hypothesis := h2.hypothesis
            design := design_experiment h2
            status := "initiated"
            ethics := "approved" }, ?_, ?_, rfl, rfl, by omega, ?_⟩
  · simp [start_research_project, ha, validate_ethics, fixed_intent]
  · simp [start_research_project, ha, validate_ethics, fixed_intent]
  · intro he
    rw [he]
    exact ⟨rfl, rfl⟩

theorem c8_project_ids_witness :
    ∃ p1 p2,
      (start_research_project sAct hyp0).2 = ProjectResult.ok p1
      ∧ (start_research_project (start_research_project sAct hyp0).1 hyp1).2
          = ProjectResult.ok p2
      ∧ p1.id = "BIO_" ++ pad3 (sAct.research_projects.length + 1)
      ∧ p2.id = "BIO_" ++ pad3 (sAct.research_projects.length + 2)
      ∧ sAct.research_projects.length + 1 < sAct.research_projects.length + 2
      ∧ (sAct.research_projects = [] → p1.id = "BIO_001" ∧ p2.id = "BIO_002") :=
  c8_project_ids sAct hyp0 hyp1 rfl

/-- C9: `activate` then `deactivate` then `activate` leaves the session in
exactly the state of a single `activate` — active, mode "active", ledger
untouched — and re-activating an active session is idempotent. -/
theorem c9_activation_roundtrip (s : BioCartridge) :
    (activate (deactivate (activate s).1)).1 = (activate s).1
    ∧ (activate s).1.active = true
    ∧ (activate s).1.mode = "active"
    ∧ (activate s).1.research_projects = s.research_projects
    ∧ (activate (activate s).1).1 = (activate s).1 :=
  ⟨rfl, rfl, rfl, rfl, rfl⟩

/-- C10: the intent record handed to `validate_ethics` by
`start_research_project` is the fixed constant (no animal test, human
sample with consent), which always passes, so on an active session the
ethics-rejection branch is unreachable: every call appends exactly one
project with ethics "approved" and returns it. -/
theorem c10_ethics_branch_unreachable (s : BioCartridge) (hyp : BiologicalHypothesis)
    (ha : s.active = true) :
    validate_ethics fixed_intent = (true, "✅ 윤리 검증 통과")
    ∧ ∃ p, start_research_project s hyp
          = ({ s with research_projects := s.research_projects ++ [p] }, ProjectResult.ok p)
        ∧ p.ethics = "approved"
        ∧ (start_research_project s hyp).1.research_projects.length
            = s.research_projects.length + 1 := by
  refine ⟨rfl, ⟨{ id := "BIO_" ++ pad3 (s.research_projects.length + 1)
                  hypothesis := hyp.hypothesis
                  design := design_experiment hyp
                  status := "initiated"
                  ethics := "approved" }, ?_, rfl, ?_⟩⟩
  · simp [start_research_project, ha, validate_ethics, fixed_intent]
  · simp [start_research_project, ha, validate_ethics, fixed_intent]

theorem c10_ethics_branch_unreachable_witness :
    validate_ethics fixed_intent = (true, "✅ 윤리 검증 통과")
    ∧ ∃ p, start_research_project sAct hyp0
          = ({ sAct with research_projects := sAct.research_projects ++ [p] },
             ProjectResult.ok p)
        ∧ p.ethics = "approved"
        ∧ (start_research_project sAct hyp0).1.research_projects.length
            = sAct.research_projects.length + 1 :=
  c10_ethics_branch_unreachable sAct hyp0 rfl
